import Mathlib

/-!
Verification of `src/components/dashboard/sections/transactions-imports/MatchContributionDialog.tsx`
from the opencollective-frontend repository.

The file embeds the decision logic of the dialog:
* `getAmountRangeFilter` — the amount tolerance window used to pre-filter candidate
  contributions (exact rational arithmetic stands in for JS number arithmetic; lodash
  `floor`/`ceil` with a decimal precision are embedded literally);
* `filterRawValueEntries` — the predicate selecting which raw CSV values are displayed;
* the dialog's selection state machine (`DialogState`, `Event`, `step`) together with
  the side effects each handler performs (`Effect`), and an explicit Apollo-cache model
  (`CacheState`, `applyEffect`) for the `client.cache.modify` calls.
-/

namespace MatchDialog

/-- Subset of the GraphQL `OrderStatus` enum used by the dialog. -/
inductive OrderStatus where
  | PENDING
  | PAID
  | CANCELLED
  | EXPIRED
  deriving DecidableEq, Repr

/-- Subset of `AmountFilterType` from `../../filters/AmountFilter/schema`. -/
inductive AmountFilterType where
  | IS_BETWEEN
  | IS_EQUAL_TO
  deriving DecidableEq, Repr

/-- lodash `floor(number, precision)`: the number rounded down (toward `-∞`, which for the
nonnegative inputs used here is toward zero) at `precision` decimal places; a negative
precision rounds to a positive power of ten. -/
def lodashFloor (x : ℚ) (precision : ℤ) : ℚ :=
  (⌊x * (10 : ℚ) ^ precision⌋ : ℚ) / (10 : ℚ) ^ precision

/-- lodash `ceil(number, precision)`: the number rounded up at `precision` decimal places. -/
def lodashCeil (x : ℚ) (precision : ℤ) : ℚ :=
  (⌈x * (10 : ℚ) ^ precision⌉ : ℚ) / (10 : ℚ) ^ precision

/-- The record returned by `getAmountRangeFilter`. -/
structure AmountRangeFilter where
  type : AmountFilterType
  gte : ℚ
  lte : ℚ
  deriving DecidableEq, Repr

/-- `getAmountRangeFilter` (source lines 178–185):
`precision = -Math.floor(Math.log10(valueInCents))`, lower bound `floor(v * 0.8, precision)`,
upper bound `ceil(v * 1.2, precision)`.  For a positive integer `v`,
`Math.floor(Math.log10 v)` is the number of decimal digits of `v` minus one, i.e.
`Nat.log 10 v`; `v ≤ 0` is undefined behaviour in the source (`log10` yields `NaN`/`-∞`),
so the embedding takes a natural number. -/
def getAmountRangeFilter (valueInCents : ℕ) : AmountRangeFilter :=
  let precision : ℤ := -(Nat.log 10 valueInCents : ℤ)
  { type := AmountFilterType.IS_BETWEEN
    gte := lodashFloor ((valueInCents : ℚ) * (8 / 10)) precision
    lte := lodashCeil ((valueInCents : ℚ) * (12 / 10)) precision }

/-- One column of the import's CSV configuration (shape as used by the source:
`csvConfig.columns.credit.target` etc.). -/
structure CSVColumn where
  target : String
  deriving DecidableEq, Repr

/-- The columns of the CSV configuration referenced by `filterRawValueEntries`:
the credit and debit columns (the two amount source columns) and the date column. -/
structure CSVColumns where
  credit : CSVColumn
  debit : CSVColumn
  date : CSVColumn
  deriving DecidableEq, Repr

/-- `CSVConfig` from `./lib/types`, restricted to the fields the dialog reads. -/
structure CSVConfig where
  columns : CSVColumns
  deriving DecidableEq, Repr

/-- `filterRawValueEntries` (source lines 44–59).  `isEmpty(value)` on a string is the
empty-string test; a missing (`null`/`undefined`) `csvConfig` is `Option.none` and
skips the column-based exclusion. -/
def filterRawValueEntries (entry : String × String) (csvConfig : Option CSVConfig) : Bool :=
  if entry.2 = "" then
    false
  else
    match csvConfig with
    | some cfg =>
        if entry.1 = cfg.columns.credit.target ∨ entry.1 = cfg.columns.debit.target
            ∨ entry.1 = cfg.columns.date.target then
          false
        else
          true
    | none => true

/-- A monetary amount as used by `row.amount`. -/
structure Amount where
  valueInCents : ℕ
  currency : String
  deriving DecidableEq, Repr

/-- The fields of `TransactionsImportRow` the dialog reads. -/
structure TransactionsImportRow where
  id : String
  amount : Amount
  date : String
  rawValue : List (String × String)
  deriving DecidableEq, Repr

/-- The fields of `TransactionsImport` the dialog reads. -/
structure TransactionsImport where
  id : String
  source : String
  csvConfig : Option CSVConfig
  deriving DecidableEq, Repr

/-- A candidate contribution (order), restricted to the fields the decision logic reads.
`status` is optional to mirror the `!selectedContribution?.status` check in the source. -/
structure Order where
  id : String
  legacyId : ℕ
  status : Option OrderStatus
  deriving DecidableEq, Repr

/-- The source condition
`!selectedContribution?.status || selectedContribution.status === OrderStatus.PENDING`
restricted to a non-null order: the status is unset or `PENDING`. -/
def Order.isPendingOrUnset (o : Order) : Bool :=
  match o.status with
  | none => true
  | some OrderStatus.PENDING => true
  | some _ => false

/-- Whether the Next branch of the footer is rendered (as opposed to the direct Save
button), i.e. the full source condition including the null selection case. -/
def nextBranchShown (selected : Option Order) : Bool :=
  match selected with
  | none => true
  | some o => o.isPendingOrUnset

/-- The props of the dialog that the decision logic reads. -/
structure DialogContext where
  row : TransactionsImportRow
  transactionsImport : TransactionsImport
  deriving DecidableEq, Repr

/-- The dialog's `useState` hooks, plus a `closed` flag recording that `onClose` ran
(the component is unmounted afterwards, so no further events apply). -/
structure DialogState where
  selectedContribution : Option Order
  isConfirming : Bool
  isSubmitting : Bool
  closed : Bool
  deriving DecidableEq, Repr

/-- The state on mount: `useState(null)`, `useState(false)`, `useState(false)`. -/
def initialState : DialogState :=
  { selectedContribution := none, isConfirming := false, isSubmitting := false
    closed := false }

/-- `order: { id: ... }` inside the row-update mutation variables. -/
structure OrderReference where
  id : String
  deriving DecidableEq, Repr

/-- One element of the `rows` array of the row-update mutation variables. -/
structure RowUpdateInput where
  id : String
  order : OrderReference
  deriving DecidableEq, Repr

/-- The variables of the `updateTransactionsImportRows` mutation as built by the
Save button handler. -/
structure UpdateRowsVariables where
  importId : String
  rows : List RowUpdateInput
  deriving DecidableEq, Repr

/-- Side effects the handlers perform, in program order:
the two `client.cache.modify` calls, the `updateRows` mutation, the error toast
and the `onClose` callback. -/
inductive Effect where
  | cacheSetRowOrder (order : Option Order)
  | cacheIncrementStats
  | sendUpdateRows (vars : UpdateRowsVariables)
  | toastError
  | closeDialog
  deriving DecidableEq, Repr

/-- User/collaborator events the rendered dialog can deliver:
selecting a candidate in the table, the footer buttons, and the three callbacks of
`ConfirmContributionForm`.  `clickSave succeeded` carries whether the awaited
`updateRows` call succeeds. -/
inductive Event where
  | setSelectedContribution (order : Option Order)
  | clickNext
  | clickBack
  | confirmSubmit
  | confirmFailure
  | confirmSuccess
  | clickSave (succeeded : Bool)
  | clickCancel
  deriving DecidableEq, Repr

/-- One step of the dialog: the next state and the effects the handler performs, in
order.  Guards mirror the rendering: the contributions table and the footer buttons
exist only while `isConfirming` is false, the confirmation form callbacks only while
it is true; the Next button is `disabled={!selectedContribution}`; the Next branch is
rendered only when `nextBranchShown`, otherwise the direct Save button is; a closed
dialog delivers no events. -/
def step (ctx : DialogContext) (s : DialogState) (e : Event) : DialogState × List Effect :=
  if s.closed then (s, [])
  else
    match e with
    | Event.setSelectedContribution o =>
        if s.isConfirming then (s, [])
        else ({ s with selectedContribution := o }, [])
    | Event.clickNext =>
        if s.isConfirming then (s, [])
        else if nextBranchShown s.selectedContribution then
          match s.selectedContribution with
          | none => (s, [])
          | some _ => ({ s with isConfirming := true }, [])
        else (s, [])
    | Event.clickBack =>
        if s.isConfirming then ({ s with isConfirming := false }, []) else (s, [])
    | Event.confirmSubmit =>
        if s.isConfirming then ({ s with isSubmitting := true }, []) else (s, [])
    | Event.confirmFailure =>
        if s.isConfirming then ({ s with isSubmitting := false }, []) else (s, [])
    | Event.confirmSuccess =>
        if s.isConfirming then
          ({ s with closed := true },
            [Effect.cacheSetRowOrder s.selectedContribution, Effect.cacheIncrementStats,
              Effect.closeDialog])
        else (s, [])
    | Event.clickSave succeeded =>
        if s.isConfirming then (s, [])
        else
          match s.selectedContribution with
          | some o =>
              if o.isPendingOrUnset then (s, [])
              else
                ({ s with isSubmitting := true, closed := true },
                  [Effect.sendUpdateRows
                      { importId := ctx.transactionsImport.id
                        rows := [{ id := ctx.row.id, order := { id := o.id } }] }]
                    ++ (if succeeded then [] else [Effect.toastError])
                    ++ [Effect.closeDialog])
          | none => (s, [])
    | Event.clickCancel =>
        if s.isConfirming then (s, [])
        else ({ s with closed := true }, [Effect.closeDialog])

/-- The `stats` fields of the parent import touched by the success handler. -/
structure TransactionsImportStats where
  processed : ℕ
  orders : ℕ
  deriving DecidableEq, Repr

/-- The Apollo-cache entries the success handler modifies: the imported row's `order`
field and the parent import's `stats`. -/
structure CacheState where
  rowOrder : Option Order
  stats : TransactionsImportStats
  deriving DecidableEq, Repr

/-- Interpretation of one effect on the cache; effects other than the two
`cache.modify` calls leave the cache unchanged. -/
def applyEffect (c : CacheState) : Effect → CacheState
  | Effect.cacheSetRowOrder o => { c with rowOrder := o }
  | Effect.cacheIncrementStats =>
      { c with
        stats :=
          { c.stats with processed := c.stats.processed + 1, orders := c.stats.orders + 1 } }
  | _ => c

/-- Interpretation of a list of effects, left to right. -/
def applyEffects (c : CacheState) (effects : List Effect) : CacheState :=
  effects.foldl applyEffect c

/-- The row-update requests among a list of effects. -/
def updateRowRequests (effects : List Effect) : List UpdateRowsVariables :=
  effects.filterMap fun e =>
    match e with
    | Effect.sendUpdateRows v => some v
    | _ => none

/-- States of the dialog reachable from the mount state by user events. -/
inductive Reachable (ctx : DialogContext) : DialogState → Prop where
  | init : Reachable ctx initialState
  | next (s : DialogState) (e : Event) : Reachable ctx s → Reachable ctx (step ctx s e).1

/-- The raw-value list as rendered (source lines 334–335):
`Object.entries(row.rawValue).filter(entry => filterRawValueEntries(entry, csvConfig))`. -/
def displayedRawValueEntries (row : TransactionsImportRow) (csvConfig : Option CSVConfig) :
    List (String × String) :=
  row.rawValue.filter fun entry => filterRawValueEntries entry csvConfig

/- Concrete sample data used to instantiate theorems with hypotheses. -/

/-- A sample CSV configuration. -/
def sampleCSVConfig : CSVConfig :=
  { columns := { credit := { target := "credit_col" }, debit := { target := "debit_col" },
                 date := { target := "date_col" } } }

/-- A sample imported row. -/
def sampleRow : TransactionsImportRow :=
  { id := "row-1", amount := { valueInCents := 12000, currency := "USD" },
    date := "2024-05-01T00:00:00Z",
    rawValue := [("description", "ACME corp"), ("date_col", "2024-05-01")] }

/-- A sample parent import. -/
def sampleImport : TransactionsImport :=
  { id := "import-1", source := "Bank", csvConfig := some sampleCSVConfig }

/-- Sample dialog props. -/
def sampleContext : DialogContext :=
  { row := sampleRow, transactionsImport := sampleImport }

/-- A candidate whose status is `PENDING`. -/
def samplePendingOrder : Order :=
  { id := "order-1", legacyId := 42, status := some OrderStatus.PENDING }

/-- A candidate whose status is `PAID` (non-pending). -/
def samplePaidOrder : Order :=
  { id := "order-2", legacyId := 43, status := some OrderStatus.PAID }

/-- The state after selecting the pending candidate on the mount state. -/
def selectedPendingState : DialogState :=
  (step sampleContext initialState (Event.setSelectedContribution (some samplePendingOrder))).1

/-- The state after selecting the pending candidate and clicking Next. -/
def confirmingState : DialogState :=
  (step sampleContext selectedPendingState Event.clickNext).1

/-- The state after selecting the paid candidate on the mount state. -/
def selectedPaidState : DialogState :=
  (step sampleContext initialState (Event.setSelectedContribution (some samplePaidOrder))).1

/-- A sample cache content. -/
def sampleCache : CacheState :=
  { rowOrder := none, stats := { processed := 3, orders := 5 } }

/- Helper lemmas. -/

/-- `Math.floor(Math.log10 123) = 2`. -/
theorem natLog10_123 : Nat.log 10 123 = 2 :=
  Nat.log_eq_of_pow_le_of_lt_pow (by norm_num) (by norm_num)

/-- `Math.floor(Math.log10 123456) = 5`. -/
theorem natLog10_123456 : Nat.log 10 123456 = 5 :=
  Nat.log_eq_of_pow_le_of_lt_pow (by norm_num) (by norm_num)

/-- lodash `floor` at a negative precision `-k` rounds down to a multiple of `10^k`. -/
theorem lodashFloor_neg (x : ℚ) (k : ℕ) :
    lodashFloor x (-(k:ℤ)) = (⌊x / 10^k⌋ : ℚ) * 10^k := by
  rw [lodashFloor, zpow_neg, zpow_natCast, ← div_eq_mul_inv, div_inv_eq_mul]

/-- lodash `ceil` at a negative precision `-k` rounds up to a multiple of `10^k`. -/
theorem lodashCeil_neg (x : ℚ) (k : ℕ) :
    lodashCeil x (-(k:ℤ)) = (⌈x / 10^k⌉ : ℚ) * 10^k := by
  rw [lodashCeil, zpow_neg, zpow_natCast, ← div_eq_mul_inv, div_inv_eq_mul]

/-- Ceiling in terms of floor, used to evaluate ceilings numerically. -/
theorem intCeil_as_neg_floor (a : ℚ) : (⌈a⌉ : ℤ) = -⌊-a⌋ := by
  rw [Int.floor_neg, neg_neg]

/-- Evaluation of the amount filter at 123: `floor(98.4, -2) = 0`, `ceil(147.6, -2) = 200`. -/
theorem getAmountRangeFilter_123 :
    getAmountRangeFilter 123 = ⟨AmountFilterType.IS_BETWEEN, 0, 200⟩ := by
  simp only [getAmountRangeFilter, natLog10_123, lodashFloor_neg, lodashCeil_neg]
  norm_num [intCeil_as_neg_floor]

/-- Evaluation of the amount filter at 123456:
`floor(98764.8, -5) = 0`, `ceil(148147.2, -5) = 200000`. -/
theorem getAmountRangeFilter_123456 :
    getAmountRangeFilter 123456 = ⟨AmountFilterType.IS_BETWEEN, 0, 200000⟩ := by
  simp only [getAmountRangeFilter, natLog10_123456, lodashFloor_neg, lodashCeil_neg]
  norm_num [intCeil_as_neg_floor]

/-- Each step preserves the invariant that a confirming state has a selection:
the confirmation branch renders no selection events, and `isConfirming` is only set by
the Next button, which is disabled without a selection. -/
theorem step_preserves_selection_invariant (ctx : DialogContext) (s : DialogState) (e : Event)
    (h : s.isConfirming = true → s.selectedContribution.isSome = true)
    (h2 : (step ctx s e).1.isConfirming = true) :
    (step ctx s e).1.selectedContribution.isSome = true := by
  rcases e with o | _ | _ | _ | _ | _ | b | _ <;>
    simp only [step] at h2 ⊢ <;>
    split_ifs at h2 ⊢ <;>
    first
      | exact h h2
      | simp_all
  all_goals rcases hsel : s.selectedContribution with _ | o2 <;> simp_all
  all_goals (split_ifs at h2 ⊢; simp_all)

/-- In every reachable confirming state the selection is non-null. -/
theorem reachable_confirming_isSome (ctx : DialogContext) (s : DialogState)
    (hs : Reachable ctx s) (hc : s.isConfirming = true) :
    s.selectedContribution.isSome = true := by
  induction hs with
  | init => simp [initialState] at hc
  | next t e ht ih => exact step_preserves_selection_invariant ctx t e ih hc

/- Claim theorems. -/

/-- C1 (counterexample): `getAmountRangeFilter` does NOT return `{gte: 100, lte: 200}` for
123 and `{gte: 100000, lte: 200000}` for 123456: the lower bound `floor(0.8 × 123, -2)`
is `floor(98.4, -2) = 0`, not 100 (and likewise `floor(98764.8, -5) = 0`). -/
theorem getAmountRangeFilter_spec_values_false :
    ¬ ((getAmountRangeFilter 123).gte = 100 ∧ (getAmountRangeFilter 123).lte = 200 ∧
        (getAmountRangeFilter 123456).gte = 100000 ∧
        (getAmountRangeFilter 123456).lte = 200000) := by
  intro h
  have h0 := h.1
  rw [getAmountRangeFilter_123] at h0
  norm_num at h0

/-- C1 (amended): `getAmountRangeFilter 123 = {IS_BETWEEN, gte: 0, lte: 200}` and
`getAmountRangeFilter 123456 = {IS_BETWEEN, gte: 0, lte: 200000}`. -/
theorem getAmountRangeFilter_values :
    getAmountRangeFilter 123 = ⟨AmountFilterType.IS_BETWEEN, 0, 200⟩ ∧
    getAmountRangeFilter 123456 = ⟨AmountFilterType.IS_BETWEEN, 0, 200000⟩ :=
  ⟨getAmountRangeFilter_123, getAmountRangeFilter_123456⟩

/-- C2: on the confirm-as-new-payment path, a successful confirmation submit emits
exactly the two cache mutations followed by the dialog close, in that order; applied
to any cache they set the row's order reference to the selected contribution and
increment the import's `processed` and `orders` counters by exactly 1; and the dialog
ends closed. -/
theorem confirm_success_commits_then_closes (ctx : DialogContext) (s : DialogState) (o : Order)
    (c : CacheState) (hopen : s.closed = false) (hconf : s.isConfirming = true)
    (hsel : s.selectedContribution = some o) :
    (step ctx s Event.confirmSuccess).2 =
      [Effect.cacheSetRowOrder (some o), Effect.cacheIncrementStats, Effect.closeDialog] ∧
    (applyEffects c (step ctx s Event.confirmSuccess).2).rowOrder = some o ∧
    (applyEffects c (step ctx s Event.confirmSuccess).2).stats.processed =
      c.stats.processed + 1 ∧
    (applyEffects c (step ctx s Event.confirmSuccess).2).stats.orders = c.stats.orders + 1 ∧
    (step ctx s Event.confirmSuccess).1.closed = true := by
  simp [step, hopen, hconf, hsel, applyEffects, applyEffect]

/-- C2 witness: the theorem instantiated at the sample confirming state and cache. -/
theorem confirm_success_commits_then_closes_witness :
    (step sampleContext confirmingState Event.confirmSuccess).2 =
      [Effect.cacheSetRowOrder (some samplePendingOrder), Effect.cacheIncrementStats,
        Effect.closeDialog] ∧
    (applyEffects sampleCache (step sampleContext confirmingState Event.confirmSuccess).2).rowOrder =
      some samplePendingOrder ∧
    (applyEffects sampleCache (step sampleContext confirmingState Event.confirmSuccess).2).stats.processed =
      sampleCache.stats.processed + 1 ∧
    (applyEffects sampleCache (step sampleContext confirmingState Event.confirmSuccess).2).stats.orders =
      sampleCache.stats.orders + 1 ∧
    (step sampleContext confirmingState Event.confirmSuccess).1.closed = true :=
  confirm_success_commits_then_closes sampleContext confirmingState samplePendingOrder
    sampleCache (by decide) (by decide) (by decide)

/-- C3: on the direct-link path (non-pending selection), clicking Save emits exactly one
row-update request, with variables `{importId, rows: [{id: row.id, order: {id: o.id}}]}`;
the close effect is emitted whether the request succeeds or fails; on failure a toast is
also emitted; and the dialog ends closed. -/
theorem direct_link_single_request_always_closes (ctx : DialogContext) (s : DialogState)
    (o : Order) (succeeded : Bool) (hopen : s.closed = false)
    (hbrowse : s.isConfirming = false) (hsel : s.selectedContribution = some o)
    (hpaid : o.isPendingOrUnset = false) :
    updateRowRequests (step ctx s (Event.clickSave succeeded)).2 =
      [{ importId := ctx.transactionsImport.id
         rows := [{ id := ctx.row.id, order := { id := o.id } }] }] ∧
    Effect.closeDialog ∈ (step ctx s (Event.clickSave succeeded)).2 ∧
    (succeeded = false → Effect.toastError ∈ (step ctx s (Event.clickSave succeeded)).2) ∧
    (step ctx s (Event.clickSave succeeded)).1.closed = true := by
  cases succeeded <;> simp [step, hopen, hbrowse, hsel, hpaid, updateRowRequests]

/-- C3 witness: the theorem instantiated at the sample paid selection with a failing
request. -/
theorem direct_link_single_request_always_closes_witness :
    updateRowRequests (step sampleContext selectedPaidState (Event.clickSave false)).2 =
      [{ importId := sampleImport.id
         rows := [{ id := sampleRow.id, order := { id := samplePaidOrder.id } }] }] ∧
    Effect.closeDialog ∈ (step sampleContext selectedPaidState (Event.clickSave false)).2 ∧
    (false = false →
      Effect.toastError ∈ (step sampleContext selectedPaidState (Event.clickSave false)).2) ∧
    (step sampleContext selectedPaidState (Event.clickSave false)).1.closed = true :=
  direct_link_single_request_always_closes sampleContext selectedPaidState samplePaidOrder
    false (by decide) (by decide) (by decide) (by decide)

/-- C4: in every reachable state, `isConfirming = true` implies a non-null selection;
and any step that emits a commit effect (the row-update request of the direct-link Save,
or the cache write of the confirm-success handler) starts from a state with a non-null
selection. -/
theorem confirming_requires_selection (ctx : DialogContext) (s : DialogState)
    (hs : Reachable ctx s) :
    (s.isConfirming = true → s.selectedContribution.isSome = true) ∧
    (∀ e : Event,
      ((∃ v, Effect.sendUpdateRows v ∈ (step ctx s e).2) ∨
        (∃ o, Effect.cacheSetRowOrder o ∈ (step ctx s e).2)) →
      s.selectedContribution.isSome = true) := by
  refine ⟨reachable_confirming_isSome ctx s hs, ?_⟩
  intro e he
  rcases e with o | _ | _ | _ | _ | _ | b | _ <;>
    simp only [step] at he <;>
    split_ifs at he <;>
    first
      | exact reachable_confirming_isSome ctx s hs (by assumption)
      | simp_all
  all_goals rcases hsel : s.selectedContribution with _ | o2 <;> simp_all

/-- C4 witness: the invariant applied to the concretely reached confirming state. -/
theorem confirming_requires_selection_witness :
    confirmingState.selectedContribution.isSome = true :=
  (confirming_requires_selection sampleContext confirmingState
    (Reachable.next _ _ (Reachable.next _ _ Reachable.init))).1 (by decide)

/-- C5: a step ends in a confirming state only if the state already was confirming, or
the event is a Next click on a selected candidate whose status is `PENDING` or unset;
and when the selected candidate has a non-pending status, a Next click is void (the
Save button is rendered in place of Next), so Confirming is never entered. -/
theorem confirming_only_from_pending_selection (ctx : DialogContext) (s : DialogState) :
    (∀ e : Event, (step ctx s e).1.isConfirming = true →
      s.isConfirming = true ∨
        (e = Event.clickNext ∧
          ∃ o, s.selectedContribution = some o ∧ o.isPendingOrUnset = true)) ∧
    (∀ o : Order, s.selectedContribution = some o → o.isPendingOrUnset = false →
      step ctx s Event.clickNext = (s, [])) := by
  constructor
  · intro e he
    by_cases hc : s.isConfirming = true
    · exact Or.inl hc
    · refine Or.inr ?_
      rcases e with o | _ | _ | _ | _ | _ | b | _ <;>
        simp only [step] at he <;>
        split_ifs at he <;>
        simp_all
      all_goals rcases hsel : s.selectedContribution with _ | o2 <;>
        simp_all [nextBranchShown]
      all_goals (split_ifs at he; simp_all)
  · intro o hsel hps
    simp only [step, hsel, nextBranchShown, hps]
    split_ifs <;> simp_all

/-- C5 witness: entering Confirming via Next from the sample pending selection. -/
theorem confirming_only_from_pending_selection_witness :
    selectedPendingState.isConfirming = true ∨
      (Event.clickNext = Event.clickNext ∧
        ∃ o, selectedPendingState.selectedContribution = some o ∧
          o.isPendingOrUnset = true) :=
  (confirming_only_from_pending_selection sampleContext selectedPendingState).1
    Event.clickNext (by decide)

/-- C6 (counterexample): in the reachable state with the paid candidate selected, a
failing direct-link Save leaves `isSubmitting = true` — the flag is NOT reset to false
on this failing submission (the `finally` clause only closes the dialog). -/
theorem direct_link_failure_keeps_isSubmitting :
    Reachable sampleContext selectedPaidState ∧
    Effect.toastError ∈ (step sampleContext selectedPaidState (Event.clickSave false)).2 ∧
    ¬ ((step sampleContext selectedPaidState (Event.clickSave false)).1.isSubmitting = false) :=
  ⟨Reachable.next _ _ Reachable.init, by decide, by decide⟩

/-- C6 (amended): `isSubmitting` is set to true at submit start on both paths; on the
confirm path it is reset to false when the submission fails; on the direct-link path it
is never reset — on failure the dialog closes with the flag still set. -/
theorem isSubmitting_set_on_submit_reset_only_on_confirm_failure (ctx : DialogContext)
    (s : DialogState) :
    (s.closed = false → s.isConfirming = true →
      (step ctx s Event.confirmSubmit).1.isSubmitting = true) ∧
    (s.closed = false → s.isConfirming = true →
      (step ctx s Event.confirmFailure).1.isSubmitting = false) ∧
    (∀ (o : Order) (succeeded : Bool), s.closed = false → s.isConfirming = false →
      s.selectedContribution = some o → o.isPendingOrUnset = false →
      (step ctx s (Event.clickSave succeeded)).1.isSubmitting = true ∧
      Effect.closeDialog ∈ (step ctx s (Event.clickSave succeeded)).2) := by
  refine ⟨?_, ?_, ?_⟩
  · intro h1 h2; simp [step, h1, h2]
  · intro h1 h2; simp [step, h1, h2]
  · intro o succeeded h1 h2 hsel hps
    cases succeeded <;> simp [step, h1, h2, hsel, hps]

/-- C6 witness: the amended flag behaviour at the sample confirming and paid-selection
states. -/
theorem isSubmitting_flag_witness :
    (step sampleContext confirmingState Event.confirmSubmit).1.isSubmitting = true ∧
    (step sampleContext confirmingState Event.confirmFailure).1.isSubmitting = false ∧
    (step sampleContext selectedPaidState (Event.clickSave false)).1.isSubmitting = true ∧
    Effect.closeDialog ∈ (step sampleContext selectedPaidState (Event.clickSave false)).2 :=
  ⟨(isSubmitting_set_on_submit_reset_only_on_confirm_failure sampleContext
      confirmingState).1 (by decide) (by decide),
   (isSubmitting_set_on_submit_reset_only_on_confirm_failure sampleContext
      confirmingState).2.1 (by decide) (by decide),
   ((isSubmitting_set_on_submit_reset_only_on_confirm_failure sampleContext
      selectedPaidState).2.2 samplePaidOrder false (by decide) (by decide) (by decide)
      (by decide)).1,
   ((isSubmitting_set_on_submit_reset_only_on_confirm_failure sampleContext
      selectedPaidState).2.2 samplePaidOrder false (by decide) (by decide) (by decide)
      (by decide)).2⟩

/-- C7: for every positive integer `v`, the range satisfies
`0 ≤ gte ≤ v ≤ lte` (so in particular `gte ≤ v ≤ lte` and both bounds are
non-negative). -/
theorem getAmountRangeFilter_bounds (v : ℕ) (hv : 0 < v) :
    0 ≤ (getAmountRangeFilter v).gte ∧ (getAmountRangeFilter v).gte ≤ (v:ℚ) ∧
    (v:ℚ) ≤ (getAmountRangeFilter v).lte ∧ 0 ≤ (getAmountRangeFilter v).lte := by
  simp only [getAmountRangeFilter, lodashFloor_neg, lodashCeil_neg]
  set k := Nat.log 10 v with hk
  have hq : (0:ℚ) < 10 ^ k := by positivity
  have hgte_le : (⌊(v:ℚ) * (8/10) / 10^k⌋ : ℚ) * 10^k ≤ (v:ℚ) := by
    calc (⌊(v:ℚ) * (8/10) / 10^k⌋ : ℚ) * 10^k
        ≤ ((v:ℚ) * (8/10) / 10^k) * 10^k :=
          mul_le_mul_of_nonneg_right (Int.floor_le _) hq.le
      _ = (v:ℚ) * (8/10) := div_mul_cancel₀ _ hq.ne'
      _ ≤ (v:ℚ) := mul_le_of_le_one_right (by positivity) (by norm_num)
  have hlte_ge : (v:ℚ) ≤ (⌈(v:ℚ) * (12/10) / 10^k⌉ : ℚ) * 10^k := by
    calc (v:ℚ) ≤ (v:ℚ) * (12/10) := le_mul_of_one_le_right (by positivity) (by norm_num)
      _ = ((v:ℚ) * (12/10) / 10^k) * 10^k := (div_mul_cancel₀ _ hq.ne').symm
      _ ≤ (⌈(v:ℚ) * (12/10) / 10^k⌉ : ℚ) * 10^k :=
          mul_le_mul_of_nonneg_right (Int.le_ceil _) hq.le
  refine ⟨?_, hgte_le, hlte_ge, le_trans (by positivity) hlte_ge⟩
  have hz : (0:ℤ) ≤ ⌊(v:ℚ) * (8/10) / 10^k⌋ := Int.floor_nonneg.mpr (by positivity)
  have h0 : (0:ℚ) ≤ (⌊(v:ℚ) * (8/10) / 10^k⌋ : ℚ) := by exact_mod_cast hz
  exact mul_nonneg h0 hq.le

/-- C7 witness: the bounds at `v = 123`. -/
theorem getAmountRangeFilter_bounds_witness :
    0 < 123 ∧
      (0 ≤ (getAmountRangeFilter 123).gte ∧ (getAmountRangeFilter 123).gte ≤ (123:ℚ) ∧
        (123:ℚ) ≤ (getAmountRangeFilter 123).lte ∧ 0 ≤ (getAmountRangeFilter 123).lte) :=
  ⟨by norm_num, getAmountRangeFilter_bounds 123 (by norm_num)⟩

/-- C8: with no candidate selected, a Next click is a no-op: the state (in particular
`isConfirming`) is unchanged and no effect is emitted. -/
theorem next_disabled_without_selection (ctx : DialogContext) (s : DialogState)
    (hsel : s.selectedContribution = none) :
    step ctx s Event.clickNext = (s, []) := by
  simp only [step, hsel, nextBranchShown]
  split_ifs <;> rfl

/-- C8 witness: a Next click on the mount state is a no-op. -/
theorem next_disabled_without_selection_witness :
    step sampleContext initialState Event.clickNext = (initialState, []) :=
  next_disabled_without_selection sampleContext initialState rfl

/-- C9: an entry is displayed in the raw-value list exactly when it occurs in
`row.rawValue`, its value is non-empty, and its key is none of the configured source
columns (credit and debit — the amount columns of the CSV configuration — and date). -/
theorem displayed_raw_values_exclusions (row : TransactionsImportRow) (cfg : CSVConfig)
    (entry : String × String) :
    entry ∈ displayedRawValueEntries row (some cfg) ↔
      entry ∈ row.rawValue ∧ entry.2 ≠ "" ∧ entry.1 ≠ cfg.columns.credit.target ∧
        entry.1 ≠ cfg.columns.debit.target ∧ entry.1 ≠ cfg.columns.date.target := by
  simp only [displayedRawValueEntries, List.mem_filter, filterRawValueEntries]
  split_ifs
  all_goals simp_all
  all_goals tauto

/-- C10: without a CSV configuration, `filterRawValueEntries` keeps exactly the entries
with a non-empty value: no column-based exclusion applies. -/
theorem raw_values_without_config_keep_nonempty (key value : String) :
    filterRawValueEntries (key, value) none = true ↔ value ≠ "" := by
  simp [filterRawValueEntries]

end MatchDialog
